import Mathlib

/-!
Verification of the inspect-mysql metric extraction engine.

The repository ships a command-line launcher (inspect-mysql.go), a README,
and the test suite of the dbstat collector package (mysqlstat_test.go).
The collector implementation itself (dbstat.go) is not part of the sources
at hand, so the collectors are modelled from the specification and checked
against the recorded test fixtures of mysqlstat_test.go.
-/

/-! ## Basic string/parsing helpers -/

/-- Numeric value of a list of decimal digit characters, most significant
first; non-digit characters contribute their code-point offset and are
expected to have been filtered out by callers. -/
def digitsToNat (l : List Char) : ℕ :=
  l.foldl (fun a c => 10 * a + (c.toNat - 48)) 0

/-- Parse a character list consisting exclusively of decimal digits; any
other list (including the empty one) fails, mirroring strconv.Atoi. -/
def parseDigits? (l : List Char) : Option ℕ :=
  if l ≠ [] ∧ l.all Char.isDigit then some (digitsToNat l) else none

/-- Parse a string consisting exclusively of decimal digits. -/
def parseNat? (s : String) : Option ℕ :=
  parseDigits? s.data

/-- Lenient numeric parse used for count columns: keep only the digits.
Mirrors the engine treating every seam value as a string it parses itself. -/
def parseNatD (s : String) : ℕ :=
  digitsToNat (s.data.filter Char.isDigit)

/-- Whether the first list occurs at the head of the second list. -/
def leadsWith : List Char → List Char → Bool
  | [], _ => true
  | _ :: _, [] => false
  | a :: as, b :: bs => a == b && leadsWith as bs

/-- Whether the first list occurs contiguously anywhere inside the second,
the substring test used by the session classifier (strings.Contains). -/
def hasSub (needle : List Char) : List Char → Bool
  | [] => leadsWith needle []
  | c :: t => leadsWith needle (c :: t) || hasSub needle t

/-- strings.Contains on strings. -/
def strContains (hay needle : String) : Bool :=
  hasSub needle.data hay.data

/-! ## Version normalization (C1) -/

/-- Separator characters of version strings. -/
def verSep (c : Char) : Bool :=
  c == '.' || c == '-' || c == '_'

/-- Digits of the run before the first separator of a version string. -/
def intDigits (l : List Char) : List Char :=
  (l.takeWhile (fun c => !(verSep c))).filter Char.isDigit

/-- Digits appearing after the first separator of a version string. -/
def fracDigits (l : List Char) : List Char :=
  (l.dropWhile (fun c => !(verSep c))).filter Char.isDigit

/-- Modelled from the spec: the version-normalization step of getVersion
(dbstat.go, absent from the sources at hand).  The digits before the first
separator are concatenated into the integer part, every digit after the
first separator joins the decimal fraction, and all other characters are
ignored; a string with no leading digits yields a sub-unit fraction.  The
function is total: every string maps to a rational. -/
def versionFloat (s : String) : ℚ :=
  (digitsToNat (intDigits s.data) : ℚ) +
    (digitsToNat (fracDigits s.data) : ℚ) / 10 ^ (fracDigits s.data).length

/-! ## Log-file sequence numbers (C6) -/

/-- Separator characters of binlog/relay-log filenames. -/
def logSep (c : Char) : Bool :=
  c == '.' || c == '-'

/-- Trailing token of a dot- or dash-delimited filename: the characters
after the last separator (the whole input when no separator occurs). -/
def lastTok (l : List Char) : List Char :=
  (l.reverse.takeWhile (fun c => !(logSep c))).reverse

/-- Modelled from the spec: the sequence-number extraction applied by
getSlaveStats and getBinlogStats (dbstat.go, absent from the sources at
hand) to a log filename: parse the trailing numeric token, dropping
leading zeros; a non-numeric trailing token fails the parse and the
metric keeps its previous value. -/
def logSeqNum? (s : String) : Option ℕ :=
  parseDigits? (lastTok s.data)

/-! ## Query results and the metric catalog -/

/-- Result of a column query at the Executor seam: an association of a
column name with the ordered list of that column's values, every value a
string. -/
def ColumnDict : Type := List (String × List String)

/-- The values of a named column; a missing column reads as empty. -/
def getCol (d : ColumnDict) (name : String) : List String :=
  match List.lookup name d with
  | some vs => vs
  | none => []

/-- The metric catalog populated by the collectors under verification.
Gauges are modelled as rationals (float64 in the source), counters as
naturals (uint64 in the source).  Field names follow MysqlStatMetrics of
the dbstat package as listed in the README and the test suite. -/
structure MysqlStatMetrics where
  SlaveSecondsBehindMaster : ℚ := 0
  SlaveSeqFile : ℚ := 0
  SlavePosition : ℕ := 0
  Version : ℚ := 0
  MaxConnections : ℚ := 0
  CurrentSessions : ℚ := 0
  CurrentConnectionsPct : ℚ := 0
  ActiveSessions : ℚ := 0
  BusySessionPct : ℚ := 0
  UnauthenticatedSessions : ℚ := 0
  LockedSessions : ℚ := 0
  SessionTablesLocks : ℚ := 0
  SessionGlobalReadLocks : ℚ := 0
  SessionsCopyingToTable : ℚ := 0
  SessionsStatistics : ℚ := 0
  InnodbBufpoolLRUMutexOSWait : ℕ := 0
  InnodbBufpoolZipMutexOSWait : ℕ := 0
  QueryResponseSec_000001 : ℕ := 0
  QueryResponseSec_00001 : ℕ := 0
  QueryResponseSec_0001 : ℕ := 0
  QueryResponseSec_001 : ℕ := 0
  QueryResponseSec_01 : ℕ := 0
  QueryResponseSec_1 : ℕ := 0
  QueryResponseSec1_ : ℕ := 0
  QueryResponseSec10_ : ℕ := 0
  QueryResponseSec100_ : ℕ := 0
  QueryResponseSec1000_ : ℕ := 0
  QueryResponseSec10000_ : ℕ := 0
  QueryResponseSec100000_ : ℕ := 0
  QueryResponseSec1000000_ : ℕ := 0
  deriving DecidableEq, Repr

/-- The catalog at engine construction: every metric zero. -/
def MysqlStatMetrics.init : MysqlStatMetrics := {}

/-! ## Query strings

Modelled from the spec: the fixed query text issued by each collector
(dbstat.go, absent from the sources at hand).  Claims depend on the
queries only as distinct keys at the Executor seam, never on their SQL
text, so representative statements are used; the variable names are
those referenced by mysqlstat_test.go. -/

/-- Query of getVersion. -/
def versionQuery : String := "SELECT VERSION()"

/-- Query of getSlaveStats. -/
def slaveQuery : String := "SHOW SLAVE STATUS"

/-- Query of getInnodbBufferpoolMutexWaits. -/
def mutexQuery : String := "SHOW ENGINE INNODB MUTEX"

/-- Query of getQueryResponseTime. -/
def responseTimeQuery : String :=
  "SELECT time, count FROM INFORMATION_SCHEMA.QUERY_RESPONSE_TIME"

/-- First query of getSessions: the connection limit. -/
def sessionQuery1 : String := "SELECT @@GLOBAL.max_connections"

/-- Second query of getSessions: the session list. -/
def sessionQuery2 : String :=
  "SELECT COMMAND, USER, STATE FROM INFORMATION_SCHEMA.PROCESSLIST"

/-- Query of getGlobalStatus. -/
def globalStatsQuery : String := "SHOW GLOBAL STATUS"

/-- Query of getBinlogStats. -/
def binlogStatsQuery : String := "SHOW MASTER STATUS"

/-- Query of getBinlogFiles. -/
def binlogQuery : String := "SHOW MASTER LOGS"

/-- Query of getStackedQueries. -/
def stackedQuery : String := "SELECT identical_queries_stacked, max_age FROM processlist"

/-- Query of getNumLongRunQueries. -/
def longQuery : String := "SELECT ID FROM long_running"

/-- Query of getOldest. -/
def oldestQuery : String := "SELECT time FROM oldest_query"

/-- Query of getOldestTrx. -/
def oldestTrxQuery : String := "SELECT time FROM oldest_trx"

/-- Query of getInnodbStats. -/
def innodbQuery : String := "SELECT Value FROM innodb_log_file_size"

/-- Query of getBackups. -/
def backupsQuery : String := "SELECT COUNT(*) AS procs FROM backups"

/-- Query of getSecurity. -/
def securityQuery : String := "SELECT COUNT(*) FROM unsecure_users"

/-- Query of getBlockingQuerys. -/
def blockingQuery : String := "SELECT blocking FROM blocking_querys"

/-! ## Collector bodies

Every collector body below is modelled from the spec (its implementation
in dbstat.go is absent from the sources at hand) and validated against
the recorded fixtures of mysqlstat_test.go. -/

/-- Modelled from the spec: getVersion writes the normalized version
float of the first VERSION() value; an empty result leaves the gauge. -/
def getVersionApply (t : ColumnDict) (st : MysqlStatMetrics) : MysqlStatMetrics :=
  match (getCol t "VERSION()").head? with
  | some v => { st with Version := versionFloat v }
  | none => st

/-- Modelled from the spec: getSlaveStats writes the replication-lag
gauge, the relay-log sequence-number gauge (via the trailing numeric
token of the filename) and the execution-position counter; a field whose
value is missing or fails to parse keeps its previous value. -/
def getSlaveStatsApply (t : ColumnDict) (st : MysqlStatMetrics) : MysqlStatMetrics :=
  let st1 :=
    match (getCol t "Seconds_Behind_Master").head? with
    | some v =>
      match parseNat? v with
      | some n => { st with SlaveSecondsBehindMaster := (n : ℚ) }
      | none => st
    | none => st
  let st2 :=
    match (getCol t "Relay_Master_Log_File").head? with
    | some v =>
      match logSeqNum? v with
      | some n => { st1 with SlaveSeqFile := (n : ℚ) }
      | none => st1
    | none => st1
  match (getCol t "Exec_Master_Log_Pos").head? with
  | some v =>
    match parseNat? v with
    | some n => { st2 with SlavePosition := n }
    | none => st2
  | none => st2

/-- Name of the buffer-pool LRU-list mutex in the mutex listing. -/
def lruMutexName : String := "&buf_pool->LRU_list_mutex"

/-- Name of the buffer-pool zip mutex in the mutex listing. -/
def zipMutexName : String := "&buf_pool->zip_mutex"

/-- The numeric value embedded after the equals sign of an
"os_waits=<n>" status token. -/
def osWaitsVal (s : String) : ℕ :=
  digitsToNat (((s.data.dropWhile (fun c => !(c == '='))).drop 1).takeWhile Char.isDigit)

/-- Modelled from the spec: one Name/Status pair of the mutex listing.
The two allow-listed mutex names set their counters to the os_waits
value of the paired status line; every other name is ignored. -/
def mutexStep (p : String × String) (st : MysqlStatMetrics) : MysqlStatMetrics :=
  if p.1 = lruMutexName then { st with InnodbBufpoolLRUMutexOSWait := osWaitsVal p.2 }
  else if p.1 = zipMutexName then { st with InnodbBufpoolZipMutexOSWait := osWaitsVal p.2 }
  else st

/-- Modelled from the spec: getInnodbBufferpoolMutexWaits pairs the Name
column with the Status column and folds the pairs through mutexStep. -/
def getMutexWaitsApply (t : ColumnDict) (st : MysqlStatMetrics) : MysqlStatMetrics :=
  ((getCol t "Name").zip (getCol t "Status")).foldl (fun st p => mutexStep p st) st

/-- An active command: neither Sleep, Connect nor Binlog Dump. -/
def activeCommand (c : String) : Bool :=
  !(c == "Sleep") && !(c == "Connect") && !(c == "Binlog Dump")

/-- An unauthenticated-looking USER value (substring match). -/
def unauthUser (u : String) : Bool :=
  strContains u "unauthenticated"

/-- A "copying table" STATE variant, by substring match. -/
def copyingState (s : String) : Bool :=
  strContains s "copy" && strContains s "table"

/-- Modelled from the spec: getSessions counts the session-list rows by
the fixed predicates (each into its own gauge) and computes the two
percentage gauges as current/max ratios scaled to 0..100. -/
def getSessionsApply (t1 t2 : ColumnDict) (st : MysqlStatMetrics) : MysqlStatMetrics :=
  let maxConn : ℚ :=
    match (getCol t1 "max_connections").head? with
    | some v => (parseNatD v : ℚ)
    | none => st.MaxConnections
  let commands := getCol t2 "COMMAND"
  let users := getCol t2 "USER"
  let states := getCol t2 "STATE"
  let current : ℕ := commands.length
  let active : ℕ := commands.countP activeCommand
  { st with
    MaxConnections := maxConn
    CurrentSessions := (current : ℚ)
    CurrentConnectionsPct := 100 * (current : ℚ) / maxConn
    ActiveSessions := (active : ℚ)
    BusySessionPct := 100 * (active : ℚ) / (current : ℚ)
    UnauthenticatedSessions := (users.countP unauthUser : ℚ)
    LockedSessions := (states.countP (fun s => s == "Locked") : ℚ)
    SessionTablesLocks := (states.countP (fun s => s == "Table Lock") : ℚ)
    SessionGlobalReadLocks :=
      (states.countP (fun s => s == "Waiting for global read lock") : ℚ)
    SessionsCopyingToTable := (states.countP copyingState : ℚ)
    SessionsStatistics := (states.countP (fun s => s == "statistics") : ℚ) }

/-- The bucket identities of the query response-time histogram. -/
inductive RespBucket where
  | b000001 | b00001 | b0001 | b001 | b01 | b1
  | s1 | s10 | s100 | s1000 | s10000 | s100000 | s1000000
  deriving DecidableEq, Repr

/-- Modelled from the spec: the fixed, ordered boundary-string catalog of
the response-time histogram, from "0.000001" through "10000.0" and
beyond, each paired with its fixed-named counter. -/
def respCatalog : List (String × RespBucket) :=
  [("0.000001", .b000001), ("00.00001", .b00001), ("000.0001", .b0001),
   ("0000.001", .b001), ("00000.01", .b01), ("00000.1", .b1),
   ("1.00000", .s1), ("10.0000", .s10), ("100.000", .s100),
   ("1000.00", .s1000), ("10000.0", .s10000), ("100000.", .s100000),
   ("1000000", .s1000000)]

/-- Write a response-time bucket counter. -/
def setRespCounter (b : RespBucket) (v : ℕ) (st : MysqlStatMetrics) : MysqlStatMetrics :=
  match b with
  | .b000001 => { st with QueryResponseSec_000001 := v }
  | .b00001 => { st with QueryResponseSec_00001 := v }
  | .b0001 => { st with QueryResponseSec_0001 := v }
  | .b001 => { st with QueryResponseSec_001 := v }
  | .b01 => { st with QueryResponseSec_01 := v }
  | .b1 => { st with QueryResponseSec_1 := v }
  | .s1 => { st with QueryResponseSec1_ := v }
  | .s10 => { st with QueryResponseSec10_ := v }
  | .s100 => { st with QueryResponseSec100_ := v }
  | .s1000 => { st with QueryResponseSec1000_ := v }
  | .s10000 => { st with QueryResponseSec10000_ := v }
  | .s100000 => { st with QueryResponseSec100000_ := v }
  | .s1000000 => { st with QueryResponseSec1000000_ := v }

/-- First value associated with an exactly-equal key, none otherwise. -/
def assocFind {α β : Type} [DecidableEq α] (k : α) : List (α × β) → Option β
  | [] => none
  | (k2, v) :: t => if k = k2 then some v else assocFind k t

/-- Modelled from the spec: one row of the response-time result.  The
time value is matched by exact string equality against the boundary
catalog; a match writes the parsed count to the matching counter and any
other row is ignored. -/
def respTimeStep (time count : String) (st : MysqlStatMetrics) : MysqlStatMetrics :=
  match assocFind time respCatalog with
  | some b => setRespCounter b (parseNatD count) st
  | none => st

/-- Modelled from the spec: getQueryResponseTime pairs the time column
with the count column and folds the rows through respTimeStep. -/
def getQueryResponseTimeApply (t : ColumnDict) (st : MysqlStatMetrics) : MysqlStatMetrics :=
  ((getCol t "time").zip (getCol t "count")).foldl (fun st p => respTimeStep p.1 p.2 st) st

/-! ## The Executor seam, the pass and the dispatcher -/

/-- The Executor seam: a query either returns a column dictionary or
fails with a diagnostic message. -/
def Executor : Type := String → Except String ColumnDict

/-- A metric group collector: a stable group name, the fixed queries it
issues through the Executor seam, and the pure extraction it applies to
their results. -/
structure Collector where
  name : String
  queries : List String
  apply : List ColumnDict → MysqlStatMetrics → MysqlStatMetrics

/-- Run a collector's queries in order; the first failure aborts with
its message. -/
def runQueries (exec : Executor) : List String → Except String (List ColumnDict)
  | [] => .ok []
  | q :: qs =>
    match exec q with
    | .error e => .error e
    | .ok t =>
      match runQueries exec qs with
      | .error e => .error e
      | .ok ts => .ok (t :: ts)

/-- Modelled from the spec: run one collector over the paired state of
metric catalog and diagnostic log.  A query failure appends its message
to the log and leaves every metric at its previous value; a success
applies the collector's extraction. -/
def runCollector (exec : Executor) (c : Collector) :
    MysqlStatMetrics × List String → MysqlStatMetrics × List String
  | (st, logs) =>
    match runQueries exec c.queries with
    | .error e => (st, logs ++ [e])
    | .ok ts => (c.apply ts st, logs)

/-- Modelled from the spec: one collection pass runs the given
collectors one after another in catalog order. -/
def runPass (exec : Executor) (cs : List Collector)
    (s : MysqlStatMetrics × List String) : MysqlStatMetrics × List String :=
  cs.foldl (fun s c => runCollector exec c s) s

/-- The GetVersion collector. -/
def versionCollector : Collector :=
  ⟨"GetVersion", [versionQuery], fun ts st => getVersionApply (ts.headD []) st⟩

/-- The GetSlaveStats collector. -/
def slaveCollector : Collector :=
  ⟨"GetSlaveStats", [slaveQuery], fun ts st => getSlaveStatsApply (ts.headD []) st⟩

/-- The GetSessions collector (two queries: the connection limit, then
the session list). -/
def sessionsCollector : Collector :=
  ⟨"GetSessions", [sessionQuery1, sessionQuery2],
    fun ts st => getSessionsApply (ts.headD []) (ts.getD 1 []) st⟩

/-- The GetInnodbBufferpoolMutexWaits collector. -/
def mutexCollector : Collector :=
  ⟨"GetInnodbBufferpoolMutexWaits", [mutexQuery],
    fun ts st => getMutexWaitsApply (ts.headD []) st⟩

/-- The GetQueryResponseTime collector. -/
def respTimeCollector : Collector :=
  ⟨"GetQueryResponseTime", [responseTimeQuery],
    fun ts st => getQueryResponseTimeApply (ts.headD []) st⟩

/-- Modelled from the spec: a catalog entry whose extraction body no
claim depends on; it contributes its group name to the closed dispatch
set and issues its one query through the seam. -/
def nameOnlyCollector (n q : String) : Collector :=
  ⟨n, [q], fun _ st => st⟩

/-- Modelled from the spec: the fixed, ordered collector catalog of the
dbstat engine — the closed set of group names exposed to callers. -/
def collectorCatalog : List Collector :=
  [versionCollector, slaveCollector,
   nameOnlyCollector "GetGlobalStatus" globalStatsQuery,
   nameOnlyCollector "GetBinlogStats" binlogStatsQuery,
   nameOnlyCollector "GetStackedQueries" stackedQuery,
   sessionsCollector,
   nameOnlyCollector "GetNumLongRunQueries" longQuery,
   respTimeCollector,
   nameOnlyCollector "GetBackups" backupsQuery,
   nameOnlyCollector "GetOldestQuery" oldestQuery,
   nameOnlyCollector "GetOldestTrx" oldestTrxQuery,
   nameOnlyCollector "GetBinlogFiles" binlogQuery,
   mutexCollector,
   nameOnlyCollector "GetSecurity" securityQuery,
   nameOnlyCollector "GetBlockingQuerys" blockingQuery,
   nameOnlyCollector "GetInnodbStats" innodbQuery]

/-- Modelled from the spec: Collect runs every collector of the catalog
in order over a fresh diagnostic log. -/
def Collect (exec : Executor) (st : MysqlStatMetrics) : MysqlStatMetrics × List String :=
  runPass exec collectorCatalog (st, [])

/-- The error text of a dispatch failure. -/
def unknownGroupMsg (name : String) : String :=
  "unknown metrics group: " ++ name

/-- Modelled from the spec: CallByMethodName resolves a group name by
case-sensitive exact match against the collector catalog and runs
exactly the matching collector; an unknown name returns a descriptive
error and performs no collection. -/
def CallByMethodName (name : String) (exec : Executor) (st : MysqlStatMetrics) :
    (MysqlStatMetrics × List String) × Option String :=
  match collectorCatalog.find? (fun c => c.name == name) with
  | some c => (runCollector exec c (st, []), none)
  | none => ((st, []), some (unknownGroupMsg name))

/-! ## Command-line printing loop (inspect-mysql.go) -/

/-- Help text of the -h flag (inspect-mysql.go line 34). -/
def humanFlagHelp : String := "Makes output in MB for human readable sizes"

/-- Help text of the -step flag (inspect-mysql.go line 32). -/
def stepFlagHelp : String := "metrics are collected every step seconds"

/-- The database-size line of the printing loop (inspect-mysql.go lines
88..96): with the -h flag the stored SizeBytes value is divided by
1024*1024 and suffixed " GB", otherwise printed raw and suffixed " B". -/
def displaySize (human : Bool) (sizeBytes : ℚ) : ℚ × String :=
  if human then (sizeBytes / (1024 * 1024), " GB") else (sizeBytes, " B")

/-- time.Millisecond in nanoseconds, the unit of Go durations. -/
def millisecondNs : ℕ := 1000000

/-- One second in nanoseconds. -/
def secondNs : ℕ := 1000000000

/-- The step duration of main (inspect-mysql.go line 44):
time.Millisecond * stepSec * 1000, in nanoseconds. -/
def stepDuration (stepSec : ℕ) : ℕ :=
  millisecondNs * stepSec * 1000

/-- The ticker period of the full-collection printing loop
(inspect-mysql.go line 80): step * 2, in nanoseconds. -/
def tickerPeriod (stepSec : ℕ) : ℕ :=
  stepDuration stepSec * 2

/-! ## Test fixtures (mysqlstat_test.go) -/

/-- The max_connections result of TestSessions. -/
def sessionsFixture1 : ColumnDict :=
  [("max_connections", ["100"])]

/-- The 10-row session-list result of TestSessions. -/
def sessionsFixture2 : ColumnDict :=
  [("COMMAND", ["Sleep", "Connect", "Binlog Dump", "something else", "database stuff",
     "Sleep", "Sleep", "database stuff", "other things", "square"]),
   ("USER", ["unauthenticated", "jackdorsey", "santaclaus", "easterbunny", "me",
     "also unauthenticated", "unauthenticated", "root", "root", "root"]),
   ("STATE", ["statistics", "copying another table", "Table Lock",
     "Waiting for global read lock", "else", "Table Lock", "Locked", "statistics",
     "statistics", "copying table also"])]

/-- The interleaved mutex listing of TestMutexes2. -/
def mutexFixture : ColumnDict :=
  [("Name", ["some other string", "&buf_pool->LRU_list_mutex",
     "something else", "&buf_pool->zip_mutex"]),
   ("Status", ["os_waits=1", "os_waits=2", "os_waits=5", "os_waits=3"])]

/-- The response-time rows of TestBasic. -/
def respTimeFixture : ColumnDict :=
  [("time", ["0.000001", "00.00001", "000.0001", "0000.001", "00000.01",
     "00000.1", "1.00000", "10.0000", "100.000", "1000.00", "10000.0"]),
   ("count", ["1", "2", "300", "4", "5", "6", "7", "8", "9", "10", "11"])]

/-- An Executor whose connection is lost exactly for the version query. -/
def failingExec : Executor := fun q =>
  if q = versionQuery then .error "query failed: connection lost" else .ok []

/-! ## Helper lemmas -/

/-- assocFind misses every key that is not in the association list. -/
theorem assocFind_eq_none {α β : Type} [DecidableEq α] (k : α) (l : List (α × β))
    (h : k ∉ l.map Prod.fst) : assocFind k l = none := by
  induction l with
  | nil => rfl
  | cons p t ih =>
    simp only [List.map_cons, List.mem_cons] at h
    push_neg at h
    simp only [assocFind, if_neg h.1]
    exact ih h.2

/-- takeWhile passes over a block whose elements all satisfy the test. -/
theorem takeWhile_append_all {α : Type} (q : α → Bool) (a b : List α)
    (h : ∀ x ∈ a, q x = true) : (a ++ b).takeWhile q = a ++ b.takeWhile q := by
  induction a with
  | nil => simp
  | cons x xs ih =>
    simp only [List.cons_append, List.takeWhile_cons]
    rw [h x (by simp)]
    simpa using ih (fun y hy => h y (by simp [hy]))

/-- A decimal digit is not a filename separator. -/
theorem logSep_eq_false_of_isDigit (c : Char) (h : c.isDigit = true) :
    logSep c = false := by
  by_contra hne
  rw [Bool.not_eq_false] at hne
  unfold logSep at hne
  rcases Bool.or_eq_true_iff.mp hne with h1 | h1
  · rw [eq_of_beq h1] at h
    exact absurd h (by decide)
  · rw [eq_of_beq h1] at h
    exact absurd h (by decide)

/-- The trailing token after appending a separator and a separator-free
block is that block. -/
theorem lastTok_append (p : List Char) (d : List Char) (c : Char)
    (hc : logSep c = true) (hd : ∀ x ∈ d, logSep x = false) :
    lastTok (p ++ c :: d) = d := by
  unfold lastTok
  rw [List.reverse_append, List.reverse_cons,
    List.append_assoc,
    takeWhile_append_all _ (d.reverse) _
      (fun x hx => by rw [hd x (List.mem_reverse.mp hx)]; rfl)]
  simp [List.takeWhile_cons, hc]

/-- Unfolding one collection step of a pass. -/
theorem runPass_cons (exec : Executor) (c : Collector) (cs : List Collector)
    (s : MysqlStatMetrics × List String) :
    runPass exec (c :: cs) s = runPass exec cs (runCollector exec c s) := rfl

/-- The metric outcome of a pass does not depend on the log carried in. -/
theorem runPass_fst_congr (exec : Executor) (cs : List Collector) :
    ∀ (st : MysqlStatMetrics) (logs logs2 : List String),
      (runPass exec cs (st, logs)).1 = (runPass exec cs (st, logs2)).1 := by
  induction cs with
  | nil => intro st logs logs2; rfl
  | cons c t ih =>
    intro st logs logs2
    rw [runPass_cons, runPass_cons]
    cases hq : runQueries exec c.queries with
    | error e =>
      simp only [runCollector, hq]
      exact ih st _ _
    | ok ts =>
      simp only [runCollector, hq]
      exact ih _ _ _

/-- A pass never discards a log line it was handed. -/
theorem runPass_logs_mono (exec : Executor) (cs : List Collector) :
    ∀ (st : MysqlStatMetrics) (logs : List String) (x : String), x ∈ logs →
      x ∈ (runPass exec cs (st, logs)).2 := by
  induction cs with
  | nil => intro st logs x hx; exact hx
  | cons c t ih =>
    intro st logs x hx
    rw [runPass_cons]
    cases hq : runQueries exec c.queries with
    | error e =>
      simp only [runCollector, hq]
      exact ih _ _ _ (by simp [hx])
    | ok ts =>
      simp only [runCollector, hq]
      exact ih _ _ _ hx

/-! ## Claim theorems -/

/-- C1: the version-normalization function is total (a Lean function on
all of String, stated by the closing universal clause) and returns the
digit-run concatenation value on every input: "1.2.34" maps to 1.234,
"123-456-789.0987" to 123.4567890987, "123ABC456-abc-987" to 123456.987
and "abcdefg-123-456-qwerty" to 0.123456. -/
theorem version_normalization_total_and_documented :
    versionFloat "1.2.34" = 1234 / 1000 ∧
    versionFloat "123-456-789.0987" = 1234567890987 / 10000000000 ∧
    versionFloat "123ABC456-abc-987" = 123456987 / 1000 ∧
    versionFloat "abcdefg-123-456-qwerty" = 123456 / 1000000 ∧
    ∀ s : String, versionFloat s =
      (digitsToNat (intDigits s.data) : ℚ) +
        (digitsToNat (fracDigits s.data) : ℚ) / 10 ^ (fracDigits s.data).length := by
  refine ⟨?_, ?_, ?_, ?_, fun s => rfl⟩
  · have h1 : digitsToNat (intDigits "1.2.34".data) = 1 := by decide
    have h2 : digitsToNat (fracDigits "1.2.34".data) = 234 := by decide
    have h3 : (fracDigits "1.2.34".data).length = 3 := by decide
    rw [versionFloat, h1, h2, h3]; norm_num
  · have h1 : digitsToNat (intDigits "123-456-789.0987".data) = 123 := by decide
    have h2 : digitsToNat (fracDigits "123-456-789.0987".data) = 4567890987 := by decide
    have h3 : (fracDigits "123-456-789.0987".data).length = 10 := by decide
    rw [versionFloat, h1, h2, h3]; norm_num
  · have h1 : digitsToNat (intDigits "123ABC456-abc-987".data) = 123456 := by decide
    have h2 : digitsToNat (fracDigits "123ABC456-abc-987".data) = 987 := by decide
    have h3 : (fracDigits "123ABC456-abc-987".data).length = 3 := by decide
    rw [versionFloat, h1, h2, h3]; norm_num
  · have h1 : digitsToNat (intDigits "abcdefg-123-456-qwerty".data) = 0 := by decide
    have h2 : digitsToNat (fracDigits "abcdefg-123-456-qwerty".data) = 123456 := by decide
    have h3 : (fracDigits "abcdefg-123-456-qwerty".data).length = 6 := by decide
    rw [versionFloat, h1, h2, h3]; norm_num

/-- C2: the session classifier counts the rows of every session-list
result by the fixed predicates, each into its own gauge, and on the
10-row TestSessions fixture derives current sessions 10, active 5,
unauthenticated 3, locked 1, table locks 2, global read locks 1,
copying-to-table 2 and running-statistics 3. -/
theorem session_classifier_fixture_counts :
    (getSessionsApply sessionsFixture1 sessionsFixture2 .init).CurrentSessions = 10 ∧
    (getSessionsApply sessionsFixture1 sessionsFixture2 .init).ActiveSessions = 5 ∧
    (getSessionsApply sessionsFixture1 sessionsFixture2 .init).UnauthenticatedSessions = 3 ∧
    (getSessionsApply sessionsFixture1 sessionsFixture2 .init).LockedSessions = 1 ∧
    (getSessionsApply sessionsFixture1 sessionsFixture2 .init).SessionTablesLocks = 2 ∧
    (getSessionsApply sessionsFixture1 sessionsFixture2 .init).SessionGlobalReadLocks = 1 ∧
    (getSessionsApply sessionsFixture1 sessionsFixture2 .init).SessionsCopyingToTable = 2 ∧
    (getSessionsApply sessionsFixture1 sessionsFixture2 .init).SessionsStatistics = 3 ∧
    ∀ (t1 t2 : ColumnDict) (st : MysqlStatMetrics),
      (getSessionsApply t1 t2 st).CurrentSessions =
        ((getCol t2 "COMMAND").length : ℚ) ∧
      (getSessionsApply t1 t2 st).ActiveSessions =
        ((getCol t2 "COMMAND").countP activeCommand : ℚ) ∧
      (getSessionsApply t1 t2 st).UnauthenticatedSessions =
        ((getCol t2 "USER").countP unauthUser : ℚ) ∧
      (getSessionsApply t1 t2 st).LockedSessions =
        ((getCol t2 "STATE").countP (fun s => s == "Locked") : ℚ) ∧
      (getSessionsApply t1 t2 st).SessionTablesLocks =
        ((getCol t2 "STATE").countP (fun s => s == "Table Lock") : ℚ) ∧
      (getSessionsApply t1 t2 st).SessionGlobalReadLocks =
        ((getCol t2 "STATE").countP (fun s => s == "Waiting for global read lock") : ℚ) ∧
      (getSessionsApply t1 t2 st).SessionsCopyingToTable =
        ((getCol t2 "STATE").countP copyingState : ℚ) ∧
      (getSessionsApply t1 t2 st).SessionsStatistics =
        ((getCol t2 "STATE").countP (fun s => s == "statistics") : ℚ) := by
  refine ⟨?_, ?_, ?_, ?_, ?_, ?_, ?_, ?_,
    fun t1 t2 st => ⟨rfl, rfl, rfl, rfl, rfl, rfl, rfl, rfl⟩⟩ <;> decide

/-- C3: the mutex-wait extractor sets the LRU-list and zip counters to
the os_waits values paired with their names — on the interleaved
TestMutexes2 fixture LRU becomes 2 and zip becomes 3 — and a Name/Status
entry with any other name leaves both counters (and every other metric)
unchanged. -/
theorem mutex_wait_extraction :
    ((getMutexWaitsApply mutexFixture .init).InnodbBufpoolLRUMutexOSWait = 2 ∧
     (getMutexWaitsApply mutexFixture .init).InnodbBufpoolZipMutexOSWait = 3) ∧
    ∀ (name status : String) (st : MysqlStatMetrics),
      name ≠ lruMutexName → name ≠ zipMutexName → mutexStep (name, status) st = st := by
  refine ⟨⟨by decide, by decide⟩, fun name status st h1 h2 => ?_⟩
  simp only [mutexStep]
  rw [if_neg h1, if_neg h2]

/-- Witness for C3 at a concrete unrelated entry of the TestMutexes2
fixture. -/
theorem mutex_wait_extraction_witness :
    mutexStep ("some other string", "os_waits=1") MysqlStatMetrics.init =
      MysqlStatMetrics.init :=
  mutex_wait_extraction.2 "some other string" "os_waits=1" MysqlStatMetrics.init
    (by decide) (by decide)

/-- C4: the response-time collector matches a row's time value by exact
string equality against the fixed boundary catalog; a matching row
writes its parsed count to the corresponding counter and a row with an
unrecognized time string is ignored.  On the TestBasic fixture the
eleven exercised counters receive 1, 2, 300, 4, 5, 6, 7, 8, 9, 10, 11. -/
theorem response_time_exact_match :
    ((getQueryResponseTimeApply respTimeFixture .init).QueryResponseSec_000001 = 1 ∧
     (getQueryResponseTimeApply respTimeFixture .init).QueryResponseSec_00001 = 2 ∧
     (getQueryResponseTimeApply respTimeFixture .init).QueryResponseSec_0001 = 300 ∧
     (getQueryResponseTimeApply respTimeFixture .init).QueryResponseSec_001 = 4 ∧
     (getQueryResponseTimeApply respTimeFixture .init).QueryResponseSec_01 = 5 ∧
     (getQueryResponseTimeApply respTimeFixture .init).QueryResponseSec_1 = 6 ∧
     (getQueryResponseTimeApply respTimeFixture .init).QueryResponseSec1_ = 7 ∧
     (getQueryResponseTimeApply respTimeFixture .init).QueryResponseSec10_ = 8 ∧
     (getQueryResponseTimeApply respTimeFixture .init).QueryResponseSec100_ = 9 ∧
     (getQueryResponseTimeApply respTimeFixture .init).QueryResponseSec1000_ = 10 ∧
     (getQueryResponseTimeApply respTimeFixture .init).QueryResponseSec10000_ = 11) ∧
    (∀ (time count : String) (st : MysqlStatMetrics) (b : RespBucket),
      assocFind time respCatalog = some b →
      respTimeStep time count st = setRespCounter b (parseNatD count) st) ∧
    (∀ (time count : String) (st : MysqlStatMetrics),
      time ∉ respCatalog.map Prod.fst → respTimeStep time count st = st) := by
  refine ⟨⟨?_, ?_, ?_, ?_, ?_, ?_, ?_, ?_, ?_, ?_, ?_⟩, ?_, ?_⟩
  case _ => decide
  case _ => decide
  case _ => decide
  case _ => decide
  case _ => decide
  case _ => decide
  case _ => decide
  case _ => decide
  case _ => decide
  case _ => decide
  case _ => decide
  case _ =>
    intro time count st b hb
    simp only [respTimeStep, hb]
  case _ =>
    intro time count st hmem
    simp only [respTimeStep, assocFind_eq_none time respCatalog hmem]

/-- Witness for C4: the "000.0001" boundary row of the TestBasic fixture
writes counter QueryResponseSec_0001, and a time string outside the
boundary catalog leaves the catalog untouched. -/
theorem response_time_exact_match_witness :
    respTimeStep "000.0001" "300" MysqlStatMetrics.init =
      setRespCounter RespBucket.b0001 (parseNatD "300") MysqlStatMetrics.init ∧
    respTimeStep "7.5" "42" MysqlStatMetrics.init = MysqlStatMetrics.init :=
  ⟨response_time_exact_match.2.1 "000.0001" "300" MysqlStatMetrics.init
      RespBucket.b0001 (by decide),
   response_time_exact_match.2.2 "7.5" "42" MysqlStatMetrics.init (by decide)⟩

/-- C5: the two percentage gauges are current/max ratios scaled to
0..100 — busy sessions over current sessions and current sessions over
max_connections — and on the TestSessions fixture (max_connections 100,
10 sessions, 5 active) they evaluate to 10 and 50. -/
theorem session_percentages :
    (getSessionsApply sessionsFixture1 sessionsFixture2 .init).CurrentConnectionsPct = 10 ∧
    (getSessionsApply sessionsFixture1 sessionsFixture2 .init).BusySessionPct = 50 ∧
    ∀ (t1 t2 : ColumnDict) (st : MysqlStatMetrics),
      (getSessionsApply t1 t2 st).BusySessionPct =
        100 * ((getCol t2 "COMMAND").countP activeCommand : ℚ) /
          ((getCol t2 "COMMAND").length : ℚ) ∧
      (getSessionsApply t1 t2 st).CurrentConnectionsPct =
        100 * ((getCol t2 "COMMAND").length : ℚ) /
          (getSessionsApply t1 t2 st).MaxConnections := by
  refine ⟨?_, ?_, fun t1 t2 st => ⟨rfl, rfl⟩⟩
  · have e1 : (getSessionsApply sessionsFixture1 sessionsFixture2 .init).CurrentConnectionsPct
        = 100 * ((10 : ℕ) : ℚ) / ((100 : ℕ) : ℚ) := rfl
    rw [e1]; push_cast; norm_num
  · have e2 : (getSessionsApply sessionsFixture1 sessionsFixture2 .init).BusySessionPct
        = 100 * ((5 : ℕ) : ℚ) / ((10 : ℕ) : ℚ) := rfl
    rw [e2]; push_cast; norm_num

/-- C6: the sequence-number extractor returns the trailing numeric token
of a '.' or '-' delimited log filename with leading zeros dropped:
"some-name-bin.010" yields 10, "some.name.bin.01345" yields 1345, and in
general any filename ending in a separator followed by a digit run maps
to that run's value, whichever of the two delimiters is used. -/
theorem log_seq_extractor :
    logSeqNum? "some-name-bin.010" = some 10 ∧
    logSeqNum? "some.name.bin.01345" = some 1345 ∧
    ∀ (p : List Char) (d : List Char), d ≠ [] → (∀ x ∈ d, x.isDigit = true) →
      logSeqNum? (String.mk (p ++ '.' :: d)) = some (digitsToNat d) ∧
      logSeqNum? (String.mk (p ++ '-' :: d)) = some (digitsToNat d) := by
  refine ⟨by decide, by decide, fun p d hne hdig => ?_⟩
  have hsep : ∀ x ∈ d, logSep x = false :=
    fun x hx => logSep_eq_false_of_isDigit x (hdig x hx)
  have hparse : parseDigits? d = some (digitsToNat d) := by
    unfold parseDigits?
    rw [if_pos ⟨hne, List.all_eq_true.mpr hdig⟩]
  constructor
  · show parseDigits? (lastTok (p ++ '.' :: d)) = some (digitsToNat d)
    rw [lastTok_append p d '.' (by decide) hsep, hparse]
  · show parseDigits? (lastTok (p ++ '-' :: d)) = some (digitsToNat d)
    rw [lastTok_append p d '-' (by decide) hsep, hparse]

/-- Witness for C6 at the concrete filename "x.42". -/
theorem log_seq_extractor_witness :
    logSeqNum? (String.mk (['x'] ++ '.' :: ['4', '2'])) = some (digitsToNat ['4', '2']) ∧
    logSeqNum? (String.mk (['x'] ++ '-' :: ['4', '2'])) = some (digitsToNat ['4', '2']) :=
  log_seq_extractor.2.2 ['x'] ['4', '2'] (by decide) (by decide)

/-- C7: when the collector at position i of a pass fails its query call
at the Executor seam, the pass's final metric catalog is exactly the one
produced with that collector omitted (so its own metrics keep their
previous values and no other collector is affected), and the failure
message is logged. -/
theorem partial_failure_isolation (exec : Executor) (cs : List Collector)
    (st : MysqlStatMetrics) (logs : List String) (i : ℕ) (cf : Collector) (e : String)
    (hget : cs.get? i = some cf)
    (hfail : runQueries exec cf.queries = .error e) :
    (runPass exec cs (st, logs)).1 = (runPass exec (cs.eraseIdx i) (st, logs)).1 ∧
    e ∈ (runPass exec cs (st, logs)).2 := by
  induction cs generalizing i st logs with
  | nil => exact absurd hget (by simp)
  | cons c t ih =>
    cases i with
    | zero =>
      obtain rfl : c = cf := by simpa using hget
      have hc : runCollector exec c (st, logs) = (st, logs ++ [e]) := by
        simp only [runCollector, hfail]
      constructor
      · rw [runPass_cons, hc, show (c :: t).eraseIdx 0 = t from rfl]
        exact runPass_fst_congr exec t st _ _
      · rw [runPass_cons, hc]
        exact runPass_logs_mono exec t st _ e (by simp)
    | succ j =>
      have hget2 : t.get? j = some cf := hget
      rcases h2 : runCollector exec c (st, logs) with ⟨st2, logs2⟩
      constructor
      · rw [runPass_cons, show (c :: t).eraseIdx (j + 1) = c :: t.eraseIdx j from rfl,
          runPass_cons, h2]
        exact (ih st2 logs2 j hget2).1
      · rw [runPass_cons, h2]
        exact (ih st2 logs2 j hget2).2

/-- Witness for C7: with the version collector (position 0 of the
catalog) failing, a full pass equals the pass without it and the failure
is logged. -/
theorem partial_failure_isolation_witness :
    (runPass failingExec collectorCatalog (MysqlStatMetrics.init, [])).1 =
      (runPass failingExec (collectorCatalog.eraseIdx 0) (MysqlStatMetrics.init, [])).1 ∧
    "query failed: connection lost" ∈
      (runPass failingExec collectorCatalog (MysqlStatMetrics.init, [])).2 :=
  partial_failure_isolation failingExec collectorCatalog MysqlStatMetrics.init [] 0
    versionCollector "query failed: connection lost" rfl rfl

/-- C8: dispatching any group name outside the fixed catalog (compared
by case-sensitive exact match) returns the descriptive unknown-group
error, invokes no collector and leaves every metric of the catalog
unchanged. -/
theorem unknown_group_dispatch (name : String) (exec : Executor)
    (st : MysqlStatMetrics)
    (h : name ∉ collectorCatalog.map Collector.name) :
    CallByMethodName name exec st = ((st, []), some (unknownGroupMsg name)) := by
  have hfind : collectorCatalog.find? (fun c => c.name == name) = none := by
    rw [List.find?_eq_none]
    intro c hc
    have : c.name ≠ name := by
      intro he
      exact h (he ▸ List.mem_map_of_mem Collector.name hc)
    simpa using this
  simp only [CallByMethodName, hfind]

/-- Witness for C8 at the concrete unknown name "GetFoo". -/
theorem unknown_group_dispatch_witness :
    CallByMethodName "GetFoo" failingExec MysqlStatMetrics.init =
      ((MysqlStatMetrics.init, []), some (unknownGroupMsg "GetFoo")) :=
  unknown_group_dispatch "GetFoo" failingExec MysqlStatMetrics.init (by decide)

/-- C9: with the -h flag set, the printed database size is the stored
SizeBytes value divided by 1024*1024 (a mebibyte divisor) yet the
printed suffix is " GB" while the flag's help text says MB; with the
flag unset the raw byte value is printed with suffix " B". -/
theorem human_size_display :
    (∀ sizeBytes : ℚ,
      displaySize true sizeBytes = (sizeBytes / 1048576, " GB") ∧
      displaySize false sizeBytes = (sizeBytes, " B")) ∧
    humanFlagHelp = "Makes output in MB for human readable sizes" := by
  refine ⟨fun s => ⟨?_, rfl⟩, rfl⟩
  show (s / (1024 * 1024), " GB") = (s / 1048576, " GB")
  norm_num

/-- C10: in full-collection mode the printing loop's ticker period is
step * 2; since step is built as milliseconds * stepSec * 1000 — that
is, stepSec seconds — the loop fires every 2 * stepSec seconds, twice
the interval named by the -step flag's help text. -/
theorem ticker_period_double_step :
    (∀ stepSec : ℕ,
      stepDuration stepSec = stepSec * secondNs ∧
      tickerPeriod stepSec = 2 * stepSec * secondNs) ∧
    stepFlagHelp = "metrics are collected every step seconds" := by
  refine ⟨fun n => ⟨?_, ?_⟩, rfl⟩
  · show millisecondNs * n * 1000 = n * secondNs
    rw [millisecondNs, secondNs]; ring
  · show millisecondNs * n * 1000 * 2 = 2 * n * secondNs
    rw [millisecondNs, secondNs]; ring
